import Mathlib

/-!
Shallow embedding of src/main.py (Lissajous figures visualizer).

Two cores are embedded:

* the curve model of DynamicCanvas (main.py:159-225): five real parameters
  a, b, A, B, delta, a fixed 360-sample grid t = linspace(-pi, pi, 360),
  and update_figure computing x = A*sin(a*t + delta), y = B*sin(b*t);

* the synchronized control InputWidget (main.py:34-78): a bounded slider
  paired with a free-text line edit. Its two Qt entry points
  (QSlider.setValue and QLineEdit.setText) trigger the connected handlers
  slider_changed (main.py:60-65) and line_edit_changed (main.py:67-78),
  which re-enter each other through Qt signals; the re-entrant dispatch is
  modelled with an explicit recursion bound (every behavior of this
  program settles within depth 5, the bound is 8).

Framework semantics assumed by the embedding, stated once here:
QAbstractSlider.setValue clamps its argument into the slider range and
fires valueChanged only when the stored value actually changes;
QLineEdit.setText fires textChanged only when the text actually changes;
the float argument reaching an int-typed slot or signal is converted to
int by truncation toward zero. Python str() on integers is an optional
minus sign followed by decimal digits.

Python float() at main.py:73 is an external runtime primitive, like the
Qt toolkit. The widget model is therefore parameterized by a parse
oracle, parse : String → Option ℚ, where parse s = some r means float(s)
returns the finite value r (every finite Python float is a dyadic
rational) and parse s = none means float(s) raises ValueError. Theorems
about text-originated changes quantify over this oracle, so they cover
the real parser with its full grammar (scientific notation, whitespace,
underscores) and its round-to-nearest-binary64 valuation: whatever finite
value float() actually produces for a string is the r the theorem speaks
about. Strings float() maps to inf or nan parse, but not to a real
number, and fall outside claims quantified over real parse results. The
concrete function pyFloat below implements only the plain-decimal
fragment of float() and serves solely to instantiate the oracle in
concrete runs, at inputs where that fragment agrees with float().
-/

namespace Lissajous

/-- Value of a decimal digit character, none for a non-digit character. -/
def charDigit (c : Char) : Option Nat :=
  if 48 ≤ c.toNat ∧ c.toNat ≤ 57 then some (c.toNat - 48) else none

/-- The decimal digit character of d, for d < 10. -/
def digitChar (d : Nat) : Char := Char.ofNat (48 + d)

/-- Value of a big-endian list of digit characters, threading an
accumulator; none as soon as a non-digit character occurs. -/
def digitsVal : List Char → Nat → Option Nat
  | [], acc => some acc
  | c :: cs, acc =>
    match charDigit c with
    | some d => digitsVal cs (acc * 10 + d)
    | none => none

/-- Big-endian decimal digit characters of n, fuel-bounded recursion
(any fuel ≥ n computes all digits). -/
def natToChars : Nat → Nat → List Char
  | 0, _ => []
  | fuel + 1, n =>
    if n < 10 then [digitChar n]
    else natToChars fuel (n / 10) ++ [digitChar (n % 10)]

/-- Decimal numeral of a natural number. -/
def natToStr (n : Nat) : String := String.mk (natToChars (n + 1) n)

/-- Models Python str on integers, as used by setText(str(new_value)) at
main.py:58 and main.py:64. -/
def intToStr (v : Int) : String :=
  if v < 0 then "-" ++ natToStr v.natAbs else natToStr v.natAbs

/-- Unsigned plain decimal numeral: digits with at most one dot, at least
one digit overall, with its exact rational value (digits n, dot, digits m
of width k valued n + m / 10 ^ k, built as the single fraction
(n * 10 ^ k + m) / 10 ^ k). This is only the plain-decimal fragment of
Python float(): exponent, underscore, whitespace and inf/nan forms are
outside it, and float() rounds the decimal value to binary64 where it is
not exactly representable. It is used solely to instantiate the parse
oracle in concrete runs at inputs where the fragment is exact. -/
def pyFloatMag (cs : List Char) : Option ℚ :=
  let ip := cs.takeWhile (fun c => c != '.')
  let rest := cs.dropWhile (fun c => c != '.')
  match rest with
  | [] =>
    if ip.isEmpty then none
    else (digitsVal ip 0).map (fun n => (n : ℚ))
  | _ :: fp =>
    if fp.contains '.' || (ip.isEmpty && fp.isEmpty) then none
    else
      match digitsVal ip 0, digitsVal fp 0 with
      | some n, some m => some (mkRat ((n : ℤ) * 10 ^ fp.length + (m : ℤ)) (10 ^ fp.length))
      | _, _ => none

/-- The plain-decimal fragment of Python float(): optional sign, then an
unsigned plain decimal numeral; none for anything outside the fragment.
For a string inside the fragment whose decimal value is exactly
representable in binary64 (all integers and dyadic decimals used in the
concrete runs below), float() succeeds with exactly this value; for a
string such as abc that float() rejects, both fail. This function is one
possible parse oracle; the theorems about text-originated changes
quantify over every oracle and so cover the real float(). -/
def pyFloat (s : String) : Option ℚ :=
  match s.data with
  | [] => none
  | c :: cs =>
    if c = '-' then (pyFloatMag cs).map (fun q => -q)
    else if c = '+' then pyFloatMag cs
    else pyFloatMag (c :: cs)

/-- Conversion of a Python float to a C++ int: truncation toward zero.
This is applied where a float reaches an int-typed Qt boundary: the
setValue call at main.py:75 and the payload of the Signal(int) declared
at main.py:40. -/
def truncQ (q : ℚ) : ℤ := if 0 ≤ q then ⌊q⌋ else ⌈q⌉

/-- Observable state of an InputWidget (main.py:34-78): the slider bounds
and value, the text of the line edit, and the log of payloads emitted on
the valueChanged signal of the widget, in emission order. -/
structure InputWidgetState where
  sliderMin : ℤ
  sliderMax : ℤ
  sliderVal : ℤ
  text : String
  emitted : List ℚ
deriving DecidableEq

/-- The two Qt entry points that mutate an InputWidget: setting the slider
value and setting the line edit text. A user slider move enters through
setValue (Qt has already bounded the value), a user keystroke enters
through setText (the text has changed). -/
inductive QtCall where
  | setValue (v : ℤ)
  | setText (s : String)

/-- One Qt call on an InputWidget together with the re-entrant signal
dispatch it triggers, parameterized by the float() parse oracle (parse
s = some r when float(s) returns the finite value r, none when it raises
ValueError). setValue clamps into the slider range and, on an actual
change, runs slider_changed (main.py:60-65): setText(str(v)) then emit
valueChanged(v). setText, on an actual text change, runs
line_edit_changed (main.py:67-78): parse the text as float, on success
call slider.setValue when the value is at most the slider maximum, then
emit valueChanged with the parsed value; on a parse failure do nothing
(the except ValueError branch). The handlers are connected (main.py:53-54)
before the defaults are assigned, so the model fires them from the start.
The Nat argument bounds the re-entrance depth. -/
def dispatch (parse : String → Option ℚ) : Nat → InputWidgetState → QtCall → InputWidgetState
  | 0, st, _ => st
  | fuel + 1, st, QtCall.setValue v =>
    let c := max st.sliderMin (min st.sliderMax v)
    if c = st.sliderVal then st
    else
      let st1 := dispatch parse fuel { st with sliderVal := c } (QtCall.setText (intToStr c))
      { st1 with emitted := st1.emitted ++ [(c : ℚ)] }
  | fuel + 1, st, QtCall.setText s =>
    if s = st.text then st
    else
      let st2 := { st with text := s }
      match parse s with
      | none => st2
      | some v =>
        let st3 :=
          if v ≤ (st2.sliderMax : ℚ) then dispatch parse fuel st2 (QtCall.setValue (truncQ v))
          else st2
        { st3 with emitted := st3.emitted ++ [v] }

/-- Recursion bound for the signal dispatch; every run of this program
settles within depth 5. -/
def fuelN : Nat := 8

/-- QSlider.setValue on an InputWidget under the given parse oracle, with
its signal cascade. -/
def sliderSetValueWith (parse : String → Option ℚ) (st : InputWidgetState)
    (v : ℤ) : InputWidgetState :=
  dispatch parse fuelN st (QtCall.setValue v)

/-- QLineEdit.setText on an InputWidget under the given parse oracle, with
its signal cascade. -/
def editSetTextWith (parse : String → Option ℚ) (st : InputWidgetState)
    (s : String) : InputWidgetState :=
  dispatch parse fuelN st (QtCall.setText s)

/-- QSlider.setValue on an InputWidget, in the concrete runs instantiated
at the plain-decimal oracle (exact on the integer numerals these runs
parse). -/
def sliderSetValue (st : InputWidgetState) (v : ℤ) : InputWidgetState :=
  sliderSetValueWith pyFloat st v

/-- QLineEdit.setText on an InputWidget, in the concrete runs instantiated
at the plain-decimal oracle. -/
def editSetText (st : InputWidgetState) (s : String) : InputWidgetState :=
  editSetTextWith pyFloat st s

/-- InputWidget.__init__ (main.py:41-58): the slider starts at 0 adjusted
into [minimum, maximum] by setMinimum/setMaximum (main.py:51-52), the line
edit starts empty, the handlers are connected (main.py:53-54), then the
default value is pushed into the slider (main.py:57) and its numeral into
the line edit (main.py:58). The only strings parsed during
initialization are the decimal numerals of the integer defaults, on which
the plain-decimal oracle agrees with float(). -/
def initWidget (mn mx dflt : ℤ) : InputWidgetState :=
  let st0 : InputWidgetState :=
    { sliderMin := mn, sliderMax := mx, sliderVal := min mx (max mn 0),
      text := "", emitted := [] }
  let st1 := dispatch pyFloat fuelN st0 (QtCall.setValue dflt)
  dispatch pyFloat fuelN st1 (QtCall.setText (intToStr dflt))

/-- Payloads of the valueChanged signal as its listeners receive them: the
signal is declared Signal(int) at main.py:40, so each emitted float is
converted to int on delivery. -/
def delivered (st : InputWidgetState) : List ℤ := st.emitted.map truncQ

/-- The five curve coefficients, named as in the specification: delta is
the phase offset, a and b the frequency ratios, A and B the amplitudes. -/
structure CurveParameters where
  phaseOffset : ℝ
  freqRatioX : ℝ
  freqRatioY : ℝ
  amplitudeX : ℝ
  amplitudeY : ℝ

/-- Parameter state of DynamicCanvas (main.py:165-172), field names as in
the source. -/
structure DynamicCanvas where
  a : ℝ
  b : ℝ
  A : ℝ
  B : ℝ
  delta : ℝ
  t : Fin 360 → ℝ

/-- The fixed sample grid linspace(-pi, pi, 360) (main.py:172): 360 evenly
spaced samples from -pi to pi inclusive. -/
noncomputable def grid : Fin 360 → ℝ :=
  fun i => -Real.pi + (i : ℝ) * (2 * Real.pi / 359)

/-- Canvas holding the given parameters and grid; records which canvas
field realizes each specification-level coefficient. -/
def toCanvas (p : CurveParameters) (t : Fin 360 → ℝ) : DynamicCanvas :=
  { a := p.freqRatioX, b := p.freqRatioY, A := p.amplitudeX,
    B := p.amplitudeY, delta := p.phaseOffset, t := t }

/-- The canvas as built by DynamicCanvas.__init__ (main.py:165-172):
a = b = A = B = 1, delta = pi/2, t the fixed grid. -/
noncomputable def initCanvas : DynamicCanvas :=
  { a := 1, b := 1, A := 1, B := 1, delta := Real.pi / 2, t := grid }

/-- DynamicCanvas.update_figure (main.py:182-190): the recompute
operation, x = A*sin(a*t + delta) and y = B*sin(b*t) evaluated at every
grid sample; the plotting calls mutate no parameter state. -/
noncomputable def update_figure (c : DynamicCanvas) : List ℝ × List ℝ :=
  (List.ofFn (fun i => c.A * Real.sin (c.a * c.t i + c.delta)),
   List.ofFn (fun i => c.B * Real.sin (c.b * c.t i)))

/-- DynamicCanvas.compute_initial_figure (main.py:174-180): the initial
plot data, sin over the grid against itself. -/
noncomputable def compute_initial_figure : List ℝ × List ℝ :=
  (List.ofFn (fun i => Real.sin (grid i)), List.ofFn (fun i => Real.sin (grid i)))

/-- DynamicCanvas.update_delta (main.py:192-197): sets delta, recomputes
and redraws (the recompute mutates no parameter field). -/
def update_delta (c : DynamicCanvas) (v : ℝ) : DynamicCanvas := { c with delta := v }

/-- DynamicCanvas.update_a (main.py:199-204). -/
def update_a (c : DynamicCanvas) (v : ℝ) : DynamicCanvas := { c with a := v }

/-- DynamicCanvas.update_b (main.py:206-211). -/
def update_b (c : DynamicCanvas) (v : ℝ) : DynamicCanvas := { c with b := v }

/-- DynamicCanvas.update_A (main.py:213-218). -/
def update_A (c : DynamicCanvas) (v : ℝ) : DynamicCanvas := { c with A := v }

/-- DynamicCanvas.update_B (main.py:220-225). -/
def update_B (c : DynamicCanvas) (v : ℝ) : DynamicCanvas := { c with B := v }

/-! Helper lemmas about the decimal printer and parser. -/

theorem charDigit_digitChar (d : Nat) (h : d < 10) : charDigit (digitChar d) = some d := by
  interval_cases d <;> decide

theorem digitChar_ne_dot (d : Nat) (h : d < 10) : (digitChar d != '.') = true := by
  interval_cases d <;> decide

theorem digitChar_ne_minus (d : Nat) (h : d < 10) : digitChar d ≠ '-' := by
  interval_cases d <;> decide

theorem digitChar_ne_plus (d : Nat) (h : d < 10) : digitChar d ≠ '+' := by
  interval_cases d <;> decide

theorem natToChars_digits (fuel : Nat) :
    ∀ n, n ≤ fuel → ∀ c ∈ natToChars fuel n, ∃ d, d < 10 ∧ c = digitChar d := by
  induction fuel with
  | zero => intro n _ c hc; simp [natToChars] at hc
  | succ f ih =>
    intro n _ c hc
    by_cases hn : n < 10
    · simp [natToChars, hn] at hc
      exact ⟨n, hn, hc⟩
    · simp only [natToChars, if_neg hn, List.mem_append, List.mem_singleton] at hc
      rcases hc with hc | hc
      · have hdiv : n / 10 ≤ f := by
          have := Nat.div_lt_self (show 0 < n by omega) (show 1 < 10 by omega)
          omega
        exact ih (n / 10) hdiv c hc
      · exact ⟨n % 10, Nat.mod_lt _ (by omega), hc⟩

theorem natToChars_ne_nil (n : Nat) : natToChars (n + 1) n ≠ [] := by
  by_cases hn : n < 10 <;> simp [natToChars, hn]

theorem digitsVal_append (l1 l2 : List Char) (acc : Nat) :
    digitsVal (l1 ++ l2) acc =
      (match digitsVal l1 acc with
       | some a => digitsVal l2 a
       | none => none) := by
  induction l1 generalizing acc with
  | nil => rfl
  | cons c cs ih =>
    simp only [List.cons_append, digitsVal]
    cases charDigit c with
    | some d => exact ih _
    | none => rfl

theorem digitsVal_natToChars (fuel : Nat) :
    ∀ n acc, n ≤ fuel →
      digitsVal (natToChars fuel n) acc =
        some (acc * 10 ^ (natToChars fuel n).length + n) := by
  induction fuel with
  | zero =>
    intro n acc h
    have hn : n = 0 := by omega
    subst hn
    simp [natToChars, digitsVal]
  | succ f ih =>
    intro n acc _
    by_cases hn : n < 10
    · simp [natToChars, hn, digitsVal, charDigit_digitChar n hn]
    · have hdiv : n / 10 ≤ f := by
        have := Nat.div_lt_self (show 0 < n by omega) (show 1 < 10 by omega)
        omega
      simp only [natToChars, if_neg hn]
      rw [digitsVal_append, ih (n / 10) acc hdiv]
      simp only [digitsVal, charDigit_digitChar (n % 10) (Nat.mod_lt _ (by omega)),
        List.length_append, List.length_singleton]
      have hmod : n / 10 * 10 + n % 10 = n := by omega
      refine congrArg some ?_
      calc (acc * 10 ^ (natToChars f (n / 10)).length + n / 10) * 10 + n % 10
          = acc * (10 ^ (natToChars f (n / 10)).length * 10) + (n / 10 * 10 + n % 10) := by ring
        _ = acc * 10 ^ ((natToChars f (n / 10)).length + 1) + n := by rw [hmod, pow_succ]

theorem takeWhile_all {α} (p : α → Bool) :
    ∀ l : List α, (∀ c ∈ l, p c = true) → l.takeWhile p = l
  | [], _ => rfl
  | c :: cs, h => by
    simp only [List.takeWhile, h c (by simp)]
    exact congrArg (c :: ·) (takeWhile_all p cs fun x hx => h x (by simp [hx]))

theorem dropWhile_all {α} (p : α → Bool) :
    ∀ l : List α, (∀ c ∈ l, p c = true) → l.dropWhile p = []
  | [], _ => rfl
  | c :: cs, h => by
    simp only [List.dropWhile, h c (by simp)]
    exact dropWhile_all p cs fun x hx => h x (by simp [hx])

theorem pyFloatMag_natToChars (n : Nat) :
    pyFloatMag (natToChars (n + 1) n) = some ((n : ℚ)) := by
  have hall : ∀ c ∈ natToChars (n + 1) n, (c != '.') = true := by
    intro c hc
    obtain ⟨d, hd, rfl⟩ := natToChars_digits (n + 1) n (by omega) c hc
    exact digitChar_ne_dot d hd
  have hval : digitsVal (natToChars (n + 1) n) 0 = some n := by
    have := digitsVal_natToChars (n + 1) n 0 (by omega)
    simpa using this
  unfold pyFloatMag
  rw [takeWhile_all _ _ hall, dropWhile_all _ _ hall]
  simp [List.isEmpty_iff, natToChars_ne_nil n, hval]

theorem pyFloat_mk (cs : List Char) :
    pyFloat (String.mk cs) =
      (match cs with
       | [] => none
       | c :: cs' =>
         if c = '-' then (pyFloatMag cs').map (fun q => -q)
         else if c = '+' then pyFloatMag cs'
         else pyFloatMag (c :: cs')) := rfl

theorem pyFloat_natToStr (n : Nat) : pyFloat (natToStr n) = some ((n : ℚ)) := by
  unfold natToStr
  rw [pyFloat_mk]
  cases hl : natToChars (n + 1) n with
  | nil => exact absurd hl (natToChars_ne_nil n)
  | cons c cs =>
    obtain ⟨d, hd, rfl⟩ :=
      natToChars_digits (n + 1) n (by omega) c (by rw [hl]; exact List.mem_cons_self _ _)
    simp only [if_neg (digitChar_ne_minus d hd), if_neg (digitChar_ne_plus d hd)]
    rw [← hl, pyFloatMag_natToChars]

theorem pyFloat_intToStr (v : ℤ) : pyFloat (intToStr v) = some ((v : ℚ)) := by
  unfold intToStr
  by_cases hv : v < 0
  · rw [if_pos hv]
    have habs : ((v.natAbs : ℤ)) = -v := by omega
    show pyFloat (String.mk ('-' :: natToChars (v.natAbs + 1) v.natAbs)) = _
    rw [pyFloat_mk]
    simp only [if_pos rfl]
    have := pyFloatMag_natToChars v.natAbs
    simp only [this, Option.map_some]
    refine congrArg some ?_
    rw [← Int.cast_natCast v.natAbs, habs, Int.cast_neg]
    exact neg_neg _
  · rw [if_neg hv]
    rw [pyFloat_natToStr]
    refine congrArg some ?_
    have habs : ((v.natAbs : ℤ)) = v := by omega
    rw [← Int.cast_natCast v.natAbs, habs]

/-! Helper lemmas about truncation and the dispatch recursion. -/

theorem truncQ_intCast (v : ℤ) : truncQ ((v : ℚ)) = v := by
  unfold truncQ
  by_cases h : (0 : ℚ) ≤ (v : ℚ)
  · rw [if_pos h, Int.floor_intCast]
  · rw [if_neg h, Int.ceil_intCast]

theorem truncQ_le_of_lt (r : ℚ) (z : ℤ) (h : r < (z : ℚ)) : truncQ r ≤ z := by
  unfold truncQ
  by_cases h0 : 0 ≤ r
  · rw [if_pos h0]
    exact le_of_lt (Int.floor_lt.mpr h)
  · rw [if_neg h0]
    exact Int.ceil_le.mpr (le_of_lt h)

theorem getLast?_append_singleton {α} (a : α) :
    ∀ l : List α, (l ++ [a]).getLast? = some a
  | [] => rfl
  | b :: bs => by
    cases bs with
    | nil => rfl
    | cons c cs =>
      show ((c :: cs) ++ [a]).getLast? = some a
      exact getLast?_append_singleton a (c :: cs)

theorem dispatch_succ_setValue (parse : String → Option ℚ) (f : Nat)
    (st : InputWidgetState) (v : ℤ) :
    dispatch parse (f + 1) st (QtCall.setValue v) =
      (let c := max st.sliderMin (min st.sliderMax v)
       if c = st.sliderVal then st
       else
         let st1 := dispatch parse f { st with sliderVal := c } (QtCall.setText (intToStr c))
         { st1 with emitted := st1.emitted ++ [(c : ℚ)] }) := rfl

theorem dispatch_succ_setText (parse : String → Option ℚ) (f : Nat)
    (st : InputWidgetState) (s : String) :
    dispatch parse (f + 1) st (QtCall.setText s) =
      (if s = st.text then st
       else
         let st2 := { st with text := s }
         match parse s with
         | none => st2
         | some v =>
           let st3 :=
             if v ≤ (st2.sliderMax : ℚ) then dispatch parse f st2 (QtCall.setValue (truncQ v))
             else st2
           { st3 with emitted := st3.emitted ++ [v] }) := rfl

/-! Claim theorems. -/

/-- C1: for every parameter assignment and the fixed 360-sample grid, the
recompute operation returns two sequences of length 360 whose entries are
x[i] = amplitudeX * sin(freqRatioX * t[i] + phaseOffset) and
y[i] = amplitudeY * sin(freqRatioY * t[i]) at every index i. -/
theorem recompute_length_and_pointwise (p : CurveParameters) (i : Nat) (h : i < 360) :
    (update_figure (toCanvas p grid)).1.length = 360 ∧
    (update_figure (toCanvas p grid)).2.length = 360 ∧
    (update_figure (toCanvas p grid)).1[i]? =
      some (p.amplitudeX * Real.sin (p.freqRatioX * grid ⟨i, h⟩ + p.phaseOffset)) ∧
    (update_figure (toCanvas p grid)).2[i]? =
      some (p.amplitudeY * Real.sin (p.freqRatioY * grid ⟨i, h⟩)) := by
  refine ⟨by simp only [update_figure, List.length_ofFn],
    by simp only [update_figure, List.length_ofFn], ?_, ?_⟩ <;>
    simp only [update_figure, toCanvas, List.getElem?_ofFn, List.ofFnNthVal, dif_pos h]

/-- C1 witness: the theorem applied at the default parameters and index 0. -/
theorem recompute_length_and_pointwise_witness :
    (0 : Nat) < 360 ∧
    ((update_figure (toCanvas (CurveParameters.mk 0 1 1 1 1) grid)).1.length = 360 ∧
     (update_figure (toCanvas (CurveParameters.mk 0 1 1 1 1) grid)).2.length = 360 ∧
     (update_figure (toCanvas (CurveParameters.mk 0 1 1 1 1) grid)).1[(0 : Nat)]? =
       some ((CurveParameters.mk 0 1 1 1 1).amplitudeX *
         Real.sin ((CurveParameters.mk 0 1 1 1 1).freqRatioX * grid ⟨0, by norm_num⟩ +
           (CurveParameters.mk 0 1 1 1 1).phaseOffset)) ∧
     (update_figure (toCanvas (CurveParameters.mk 0 1 1 1 1) grid)).2[(0 : Nat)]? =
       some ((CurveParameters.mk 0 1 1 1 1).amplitudeY *
         Real.sin ((CurveParameters.mk 0 1 1 1 1).freqRatioY * grid ⟨0, by norm_num⟩))) :=
  ⟨by norm_num, recompute_length_and_pointwise (CurveParameters.mk 0 1 1 1 1) 0 (by norm_num)⟩

/-- C2: for phaseOffset = 0 and unit ratios and amplitudes, recompute over
the fixed grid yields sin(t[i]) against sin(t[i]) elementwise, which is
exactly the initial figure. -/
theorem recompute_identity_params :
    update_figure (toCanvas (CurveParameters.mk 0 1 1 1 1) grid) = compute_initial_figure ∧
    compute_initial_figure =
      (List.ofFn (fun i => Real.sin (grid i)), List.ofFn (fun i => Real.sin (grid i))) := by
  constructor
  · simp only [update_figure, toCanvas, compute_initial_figure, one_mul, add_zero]
  · rfl

/-- C3 counterexample: initializing the Delta control (bounds 0..360,
default 0) emits a change event, so the claim that programmatic
initialization emits no change event fails on the code. -/
theorem init_emits_counterexample :
    (initWidget 0 360 0).emitted = [(0 : ℚ)] ∧
    (initWidget 0 360 0).emitted ≠ ([] : List ℚ) := by decide

/-- C3 amended: for each of the five InputWidget constructions of this
program (Delta with bounds 0..360 and default 0, a and b with bounds
-10..10 and default 1, A and B with bounds 0..10 and default 1),
initialization leaves the slider at the default value and the text field
displaying it, but change events are emitted during initialization,
because the handlers are connected before the default value is set. -/
theorem init_updates_widgets_and_emits :
    ((initWidget 0 360 0).sliderVal = 0 ∧ (initWidget 0 360 0).text = intToStr 0 ∧
      (initWidget 0 360 0).emitted ≠ ([] : List ℚ)) ∧
    ((initWidget (-10) 10 1).sliderVal = 1 ∧ (initWidget (-10) 10 1).text = intToStr 1 ∧
      (initWidget (-10) 10 1).emitted ≠ ([] : List ℚ)) ∧
    ((initWidget 0 10 1).sliderVal = 1 ∧ (initWidget 0 10 1).text = intToStr 1 ∧
      (initWidget 0 10 1).emitted ≠ ([] : List ℚ)) := by decide

/-- C4 counterexample: on the Delta control, the text input 400.5 parses
to 801/2 (a dyadic rational, so float() returns exactly this value and
the plain-decimal oracle agrees with float() here), but the int-typed
valueChanged signal delivers 400 to listeners, not the parsed real
value. -/
theorem delivery_truncation_counterexample :
    pyFloat "400.5" = some (mkRat 801 2) ∧
    mkRat 801 2 = (801 : ℚ) / 2 ∧
    delivered (editSetText (InputWidgetState.mk 0 360 0 "0" []) "400.5") = [(400 : ℤ)] ∧
    ((400 : ℤ) : ℚ) ≠ (801 : ℚ) / 2 := by
  refine ⟨by decide, by norm_num [Rat.mkRat_eq_div], by decide, by norm_num⟩

/-- C4 amended: under every parse oracle, hence under the real float(),
for every text-originated change whose input parses as the finite real
value r, the change event is emitted carrying r, but the signal declared
with an int payload delivers r truncated toward zero to the registered
listeners; the exact value arrives only when r is integral. -/
theorem text_change_delivery (parse : String → Option ℚ) (st : InputWidgetState)
    (s : String) (r : ℚ) (hp : parse s = some r) (hs : s ≠ st.text) :
    (editSetTextWith parse st s).emitted.getLast? = some r ∧
    (delivered (editSetTextWith parse st s)).getLast? = some (truncQ r) := by
  have key : ∀ st3 : InputWidgetState,
      ({ st3 with emitted := st3.emitted ++ [r] } : InputWidgetState).emitted.getLast? = some r ∧
      (delivered { st3 with emitted := st3.emitted ++ [r] }).getLast? = some (truncQ r) := by
    intro st3
    constructor
    · exact getLast?_append_singleton r st3.emitted
    · unfold delivered
      simp only [List.map_append, List.map_cons, List.map_nil]
      exact getLast?_append_singleton (truncQ r) _
  unfold editSetTextWith fuelN
  rw [show (8 : Nat) = 7 + 1 from rfl, dispatch_succ_setText, if_neg hs]
  simp only [hp]
  exact key _

/-- C4 witness: the amended theorem applied on the Delta control to the
text 1.5, which float() parses to exactly 3/2 (a dyadic rational), under
the plain-decimal oracle which agrees there. -/
theorem text_change_delivery_witness :
    pyFloat "1.5" = some (mkRat 3 2) ∧ "1.5" ≠ (InputWidgetState.mk 0 360 0 "0" []).text ∧
    ((editSetTextWith pyFloat (InputWidgetState.mk 0 360 0 "0" []) "1.5").emitted.getLast? =
        some (mkRat 3 2) ∧
      (delivered (editSetTextWith pyFloat (InputWidgetState.mk 0 360 0 "0" []) "1.5")).getLast? =
        some (truncQ (mkRat 3 2))) :=
  ⟨by decide, by decide,
    text_change_delivery pyFloat (InputWidgetState.mk 0 360 0 "0" []) "1.5" (mkRat 3 2)
      (by decide) (by decide)⟩

/-- C5 counterexample: on the Delta control at value 0, a slider change to
5 updates the text, but the change event carrying 5 is emitted twice,
not exactly once. -/
theorem slider_change_double_emission_counterexample :
    (sliderSetValue (InputWidgetState.mk 0 360 0 "0" []) 5).text = "5" ∧
    (sliderSetValue (InputWidgetState.mk 0 360 0 "0" []) 5).emitted = [(5 : ℚ), 5] ∧
    (sliderSetValue (InputWidgetState.mk 0 360 0 "0" []) 5).emitted ≠ [(5 : ℚ)] := by decide

/-- C5 amended: for every slider-originated change to a value v within the
slider bounds, when the text field is not already displaying v, the
control updates the text field to display v and emits the change event
carrying v exactly twice: once through the text-synchronization cascade
and once directly from the slider handler. -/
theorem slider_change_updates_text_emits_twice (st : InputWidgetState) (v : ℤ)
    (h1 : st.sliderMin ≤ v) (h2 : v ≤ st.sliderMax) (h3 : v ≠ st.sliderVal)
    (h4 : intToStr v ≠ st.text) :
    sliderSetValue st v =
      { st with
          sliderVal := v
          text := intToStr v
          emitted := st.emitted ++ [(v : ℚ), (v : ℚ)] } := by
  have hc : max st.sliderMin (min st.sliderMax v) = v := by omega
  unfold sliderSetValue sliderSetValueWith fuelN
  rw [show (8 : Nat) = 7 + 1 from rfl, dispatch_succ_setValue]
  simp only [hc, if_neg h3]
  rw [show (7 : Nat) = 6 + 1 from rfl, dispatch_succ_setText]
  rw [if_neg (show ¬(intToStr v = ({ st with sliderVal := v } : InputWidgetState).text) from h4)]
  rw [pyFloat_intToStr]
  have hle : ((v : ℚ)) ≤ ((st.sliderMax : ℚ)) := by exact_mod_cast h2
  simp only [if_pos hle, truncQ_intCast]
  rw [show (6 : Nat) = 5 + 1 from rfl, dispatch_succ_setValue]
  simp only [hc, if_pos rfl, List.append_assoc]
  rfl

/-- C5 witness: the amended theorem applied on the Delta control at value
0 with a slider change to 5. -/
theorem slider_change_updates_text_emits_twice_witness :
    (InputWidgetState.mk 0 360 0 "0" []).sliderMin ≤ 5 ∧
    (5 : ℤ) ≤ (InputWidgetState.mk 0 360 0 "0" []).sliderMax ∧
    (5 : ℤ) ≠ (InputWidgetState.mk 0 360 0 "0" []).sliderVal ∧
    intToStr 5 ≠ (InputWidgetState.mk 0 360 0 "0" []).text ∧
    sliderSetValue (InputWidgetState.mk 0 360 0 "0" []) 5 =
      { (InputWidgetState.mk 0 360 0 "0" []) with
          sliderVal := 5
          text := intToStr 5
          emitted := (InputWidgetState.mk 0 360 0 "0" []).emitted ++ [(5 : ℚ), (5 : ℚ)] } :=
  ⟨by decide, by decide, by decide, by decide,
    slider_change_updates_text_emits_twice (InputWidgetState.mk 0 360 0 "0" []) 5
      (by decide) (by decide) (by decide) (by decide)⟩

/-- C6: under every parse oracle, hence under the real float(), a
text-originated change whose input fails to parse (float() raises
ValueError) is silently discarded: the slider value and the emission log
are unchanged (only the text itself shows the new input). -/
theorem invalid_text_discarded (parse : String → Option ℚ) (st : InputWidgetState)
    (s : String) (hp : parse s = none) (hs : s ≠ st.text) :
    editSetTextWith parse st s = { st with text := s } := by
  unfold editSetTextWith fuelN
  rw [show (8 : Nat) = 7 + 1 from rfl, dispatch_succ_setText, if_neg hs]
  simp only [hp]

/-- C6 witness: the theorem applied on the Delta control to the text abc,
which float() rejects, under the plain-decimal oracle which agrees
there. -/
theorem invalid_text_discarded_witness :
    pyFloat "abc" = none ∧ "abc" ≠ (InputWidgetState.mk 0 360 0 "0" []).text ∧
    editSetTextWith pyFloat (InputWidgetState.mk 0 360 0 "0" []) "abc" =
      { (InputWidgetState.mk 0 360 0 "0" []) with text := "abc" } :=
  ⟨by decide, by decide,
    invalid_text_discarded pyFloat (InputWidgetState.mk 0 360 0 "0" []) "abc"
      (by decide) (by decide)⟩

/-- C7: under every parse oracle, hence under the real float(), a
text-originated change whose parsed finite value strictly exceeds the
slider maximum leaves the slider unchanged and still emits the change
event carrying the raw parsed value. -/
theorem above_max_text_emits_raw (parse : String → Option ℚ) (st : InputWidgetState)
    (s : String) (r : ℚ) (hp : parse s = some r) (hs : s ≠ st.text)
    (hr : ((st.sliderMax : ℚ)) < r) :
    editSetTextWith parse st s = { st with text := s, emitted := st.emitted ++ [r] } := by
  unfold editSetTextWith fuelN
  rw [show (8 : Nat) = 7 + 1 from rfl, dispatch_succ_setText, if_neg hs]
  simp only [hp, if_neg (not_le.mpr hr)]

/-- C7 witness: the theorem applied on the Delta control (maximum 360) to
the text 400, which float() parses to exactly 400, under the
plain-decimal oracle which agrees there. -/
theorem above_max_text_emits_raw_witness :
    pyFloat "400" = some ((400 : ℚ)) ∧ "400" ≠ (InputWidgetState.mk 0 360 0 "0" []).text ∧
    (((InputWidgetState.mk 0 360 0 "0" []).sliderMax : ℚ)) < 400 ∧
    editSetTextWith pyFloat (InputWidgetState.mk 0 360 0 "0" []) "400" =
      { (InputWidgetState.mk 0 360 0 "0" []) with
          text := "400"
          emitted := (InputWidgetState.mk 0 360 0 "0" []).emitted ++ [(400 : ℚ)] } :=
  ⟨by decide, by decide, by decide,
    above_max_text_emits_raw pyFloat (InputWidgetState.mk 0 360 0 "0" []) "400" 400
      (by decide) (by decide) (by decide)⟩

/-- C8: recompute is a pure, deterministic function of the five parameter
values and the grid: two canvases agreeing on those agree on the
recomputed sequences, so recomputing twice with unchanged parameters
yields identical sequences. -/
theorem update_figure_deterministic (c₁ c₂ : DynamicCanvas) (ha : c₁.a = c₂.a)
    (hb : c₁.b = c₂.b) (hA : c₁.A = c₂.A) (hB : c₁.B = c₂.B)
    (hdelta : c₁.delta = c₂.delta) (ht : c₁.t = c₂.t) :
    update_figure c₁ = update_figure c₂ := by
  unfold update_figure
  rw [ha, hb, hA, hB, hdelta, ht]

/-- C8 witness: the theorem applied twice to the initial canvas. -/
theorem update_figure_deterministic_witness :
    initCanvas.a = initCanvas.a ∧
    update_figure initCanvas = update_figure initCanvas :=
  ⟨rfl, update_figure_deterministic initCanvas initCanvas rfl rfl rfl rfl rfl rfl⟩

/-- C9: each of the five parameter setters modifies only its own field:
the other four parameters and the sample grid are unchanged by every
setter, so the grid is never mutated after construction. -/
theorem setters_frame_conditions (c : DynamicCanvas) (v : ℝ) :
    ((update_delta c v).a = c.a ∧ (update_delta c v).b = c.b ∧ (update_delta c v).A = c.A ∧
      (update_delta c v).B = c.B ∧ (update_delta c v).t = c.t ∧ (update_delta c v).delta = v) ∧
    ((update_a c v).b = c.b ∧ (update_a c v).A = c.A ∧ (update_a c v).B = c.B ∧
      (update_a c v).delta = c.delta ∧ (update_a c v).t = c.t ∧ (update_a c v).a = v) ∧
    ((update_b c v).a = c.a ∧ (update_b c v).A = c.A ∧ (update_b c v).B = c.B ∧
      (update_b c v).delta = c.delta ∧ (update_b c v).t = c.t ∧ (update_b c v).b = v) ∧
    ((update_A c v).a = c.a ∧ (update_A c v).b = c.b ∧ (update_A c v).B = c.B ∧
      (update_A c v).delta = c.delta ∧ (update_A c v).t = c.t ∧ (update_A c v).A = v) ∧
    ((update_B c v).a = c.a ∧ (update_B c v).b = c.b ∧ (update_B c v).A = c.A ∧
      (update_B c v).delta = c.delta ∧ (update_B c v).t = c.t ∧ (update_B c v).B = v) :=
  ⟨⟨rfl, rfl, rfl, rfl, rfl, rfl⟩, ⟨rfl, rfl, rfl, rfl, rfl, rfl⟩,
   ⟨rfl, rfl, rfl, rfl, rfl, rfl⟩, ⟨rfl, rfl, rfl, rfl, rfl, rfl⟩,
   ⟨rfl, rfl, rfl, rfl, rfl, rfl⟩⟩

/-- C10: under every parse oracle that, like the real float(), parses the
decimal numeral of the integer slider minimum back to that integer, a
text-originated change whose parsed finite value lies below the slider
minimum still invokes the slider update, which drives the slider to its
minimum (Qt clamps), and the change event is still emitted carrying the
raw below-minimum parsed value: there is no lower-bound guard symmetric
to the maximum check. -/
theorem below_min_text_drives_slider_to_min (parse : String → Option ℚ)
    (st : InputWidgetState) (s : String) (r : ℚ)
    (hp : parse s = some r) (hs : s ≠ st.text)
    (hlt : r < ((st.sliderMin : ℚ))) (hmn : st.sliderMin ≤ st.sliderMax)
    (hrt : parse (intToStr st.sliderMin) = some ((st.sliderMin : ℚ))) :
    (editSetTextWith parse st s).sliderVal = st.sliderMin ∧
    (editSetTextWith parse st s).emitted.getLast? = some r := by
  have hle : r ≤ ((st.sliderMax : ℚ)) :=
    le_of_lt (lt_of_lt_of_le hlt (by exact_mod_cast hmn))
  have htr : truncQ r ≤ st.sliderMin := truncQ_le_of_lt r st.sliderMin hlt
  have hcl : max st.sliderMin (min st.sliderMax (truncQ r)) = st.sliderMin := by omega
  unfold editSetTextWith fuelN
  rw [show (8 : Nat) = 7 + 1 from rfl, dispatch_succ_setText, if_neg hs]
  simp only [hp, if_pos hle]
  rw [show (7 : Nat) = 6 + 1 from rfl, dispatch_succ_setValue]
  simp only [hcl]
  by_cases heq : st.sliderMin = st.sliderVal
  · rw [if_pos (show st.sliderMin = ({ st with text := s } : InputWidgetState).sliderVal from heq)]
    exact ⟨heq.symm ▸ rfl, getLast?_append_singleton r _⟩
  · rw [if_neg (show ¬(st.sliderMin = ({ st with text := s } : InputWidgetState).sliderVal) from heq)]
    have hs2 : intToStr st.sliderMin ≠ s := by
      intro hcontra
      rw [hcontra, hp] at hrt
      have : r = ((st.sliderMin : ℚ)) := by injection hrt
      rw [this] at hlt
      exact absurd hlt (lt_irrefl _)
    rw [show (6 : Nat) = 5 + 1 from rfl, dispatch_succ_setText]
    rw [if_neg (show ¬(intToStr st.sliderMin =
      ({ st with text := s, sliderVal := st.sliderMin } : InputWidgetState).text) from hs2)]
    rw [hrt]
    have hle2 : ((st.sliderMin : ℚ)) ≤ ((st.sliderMax : ℚ)) := by exact_mod_cast hmn
    simp only [if_pos hle2, truncQ_intCast]
    rw [show (5 : Nat) = 4 + 1 from rfl, dispatch_succ_setValue]
    have hcl2 : max st.sliderMin (min st.sliderMax st.sliderMin) = st.sliderMin := by omega
    simp only [hcl2, if_pos rfl]
    exact ⟨rfl, getLast?_append_singleton r _⟩

/-- C10 witness: the theorem applied on the A control (bounds 0..10, at
value 1) to the text -3, which float() parses to exactly -3, under the
plain-decimal oracle which agrees there and on the printed minimum 0. -/
theorem below_min_text_drives_slider_to_min_witness :
    pyFloat "-3" = some ((-3 : ℚ)) ∧ "-3" ≠ (InputWidgetState.mk 0 10 1 "1" []).text ∧
    ((-3 : ℚ)) < (((InputWidgetState.mk 0 10 1 "1" []).sliderMin : ℚ)) ∧
    (InputWidgetState.mk 0 10 1 "1" []).sliderMin ≤
      (InputWidgetState.mk 0 10 1 "1" []).sliderMax ∧
    pyFloat (intToStr (InputWidgetState.mk 0 10 1 "1" []).sliderMin) =
      some (((InputWidgetState.mk 0 10 1 "1" []).sliderMin : ℚ)) ∧
    ((editSetTextWith pyFloat (InputWidgetState.mk 0 10 1 "1" []) "-3").sliderVal =
        (InputWidgetState.mk 0 10 1 "1" []).sliderMin ∧
      (editSetTextWith pyFloat (InputWidgetState.mk 0 10 1 "1" []) "-3").emitted.getLast? =
        some ((-3 : ℚ))) :=
  ⟨by decide, by decide, by decide, by decide, by decide,
    below_min_text_drives_slider_to_min pyFloat (InputWidgetState.mk 0 10 1 "1" []) "-3" (-3)
      (by decide) (by decide) (by decide) (by decide) (by decide)⟩

end Lissajous
